import Mathlib

/-
Verification of the bpal FFI boundary (src/oxi/src/lib.rs).

The repository exports a single C-compatible function, optimize_png, which
takes a (pointer, length) byte view of a PNG image, delegates to the
external oxipng crate at a fixed preset, and marshals the optimized bytes
into a buffer allocated with libc malloc, returning a CompressedPNG
descriptor (data pointer, size).

The embedding below models the two external effects as oracles: the
delegated optimizer (oxipng, an external crate whose code is not in this
repository) and the libc allocator. The foreign heap is explicit state, so
that allocation, initialization and the frame of a call are provable facts.
-/

/-- A byte of image data, as a natural number. -/
abbrev Byte := Nat

/-- The C-compatible output descriptor returned across the boundary
(struct CompressedPNG, src/oxi/src/lib.rs lines 1-5): a data pointer and a
byte count. The null pointer is modelled as `none`; a non-null pointer as
`some a` for a base address `a`. -/
structure CompressedPNG where
  data : Option Nat
  size : Nat
deriving DecidableEq

/-- One outstanding allocation of the foreign (libc) allocator: its base
address and per-byte contents, where `none` marks a byte that has been
allocated but never written (uninitialized). -/
abbrev Block := Nat × List (Option Byte)

/-- The foreign heap: the outstanding malloc allocations. -/
structure Heap where
  blocks : List Block
deriving DecidableEq

/-- An allocator behaviour for libc malloc: for a requested byte count it
either fails (`none`, the null pointer) or yields a base address. -/
abbrev MallocOracle := Nat → Option Nat

/-- libc malloc: consult the allocator behaviour; on success a block of n
uninitialized bytes is added to the heap and its base address is returned;
on failure the heap is unchanged and the null pointer is returned. -/
def malloc (oracle : MallocOracle) (h : Heap) (n : Nat) : Heap × Option Nat :=
  match oracle n with
  | none => (h, none)
  | some a => (⟨(a, List.replicate n none) :: h.blocks⟩, some a)

/-- std ptr copy_nonoverlapping of src.length bytes from src to dst
(src/oxi/src/lib.rs line 24): write the source bytes over the block based
at dst, and record the source bytes that were read. -/
def copy_nonoverlapping (src : List Byte) (dst : Nat) (h : Heap) :
    Heap × List Byte :=
  (⟨h.blocks.map fun b => if b.1 = dst then (dst, src.map some) else b⟩, src)

/-- The hard-coded effort preset handed to the delegated optimizer
(oxipng Options from_preset 6, src/oxi/src/lib.rs line 13). -/
def presetLevel : Nat := 6

/-- A behaviour of the delegated optimizer, oxipng optimize_from_memory
(an external crate, opaque to this boundary): given the preset level and
the input bytes, either an optimized byte sequence or failure. -/
abbrev Optimizer := Nat → List Byte → Option (List Byte)

/-- The observable outcome of one call to optimize_png: the returned
descriptor, the final foreign heap, the sizes of the malloc requests the
call issued, and the optimizer-output bytes the copy read. -/
structure ExecOut where
  result : CompressedPNG
  heap : Heap
  allocRequests : List Nat
  srcReads : List Byte
deriving DecidableEq

/-- Shallow embedding of optimize_png (src/oxi/src/lib.rs lines 12-34).
The caller-supplied (pointer, size) pair is modelled by the byte view it
denotes. The function delegates to the optimizer at the fixed preset; on
success it builds the descriptor from the malloc result and the output
length, and performs the copy only when the malloc result is non-null; on
optimizer failure it returns the (null, 0) descriptor untouched heap. -/
def optimize_png (opt : Optimizer) (oracle : MallocOracle)
    (data : List Byte) (h : Heap) : ExecOut :=
  match opt presetLevel data with
  | some png =>
    match malloc oracle h png.length with
    | (h1, some addr) =>
      ⟨⟨some addr, png.length⟩, (copy_nonoverlapping png addr h1).1,
        [png.length], (copy_nonoverlapping png addr h1).2⟩
    | (h1, none) => ⟨⟨none, png.length⟩, h1, [png.length], []⟩
  | none => ⟨⟨none, 0⟩, h, [], []⟩

/-- The eight-byte PNG file signature. -/
def pngSignature : List Byte := [137, 80, 78, 71, 13, 10, 26, 10]

/-- Modelled from the spec: the delegated optimizer is the external oxipng
crate, whose source is not part of this repository; per the spec it fails
on a zero-length buffer and on any input that does not begin with the PNG
signature. An optimizer behaviour satisfies this predicate when it fails
on every input not beginning with the signature. -/
def RejectsNonPNG (opt : Optimizer) : Prop :=
  ∀ (level : Nat) (input : List Byte),
    input.take pngSignature.length ≠ pngSignature → opt level input = none

/-- n repeated calls of optimize_png on the same input, threading the
foreign heap from call to call. -/
def run_calls (opt : Optimizer) (oracle : MallocOracle) (data : List Byte) :
    Nat → Heap → Heap
  | 0, h => h
  | n + 1, h => run_calls opt oracle data n (optimize_png opt oracle data h).heap

/-- Every byte of every outstanding block of the heap is initialized. -/
def fullyInit (h : Heap) : Prop :=
  ∀ b ∈ h.blocks, ∀ x ∈ b.2, x ≠ none

/-- Optimizer behaviour that fails on every input. -/
def optFail : Optimizer := fun _ _ => none

/-- Optimizer behaviour whose output is always the three bytes 7, 7, 7. -/
def optConst3 : Optimizer := fun _ _ => some [7, 7, 7]

/-- Optimizer behaviour whose output is always empty. -/
def optEmpty : Optimizer := fun _ _ => some []

/-- Allocator behaviour that always fails (returns the null pointer). -/
def mallocNull : MallocOracle := fun _ => none

/-- Allocator behaviour that always succeeds at base address 100. -/
def mallocOk : MallocOracle := fun _ => some 100

/-- Helper: on optimizer failure the call returns the sentinel descriptor,
leaves the heap unchanged, issues no allocation and reads nothing. -/
theorem opt_none_eq (opt : Optimizer) (oracle : MallocOracle)
    (data : List Byte) (h : Heap) (hopt : opt presetLevel data = none) :
    optimize_png opt oracle data h = ⟨⟨none, 0⟩, h, [], []⟩ := by
  simp [optimize_png, hopt]

/-- Helper: on optimizer success followed by allocation failure, the call
returns a null data pointer with the output length as size, leaves the
heap unchanged and reads nothing. -/
theorem opt_some_malloc_none_eq (opt : Optimizer) (oracle : MallocOracle)
    (data : List Byte) (h : Heap) (png : List Byte)
    (hopt : opt presetLevel data = some png)
    (hm : oracle png.length = none) :
    optimize_png opt oracle data h =
      ⟨⟨none, png.length⟩, h, [png.length], []⟩ := by
  simp [optimize_png, hopt, malloc, hm]

/-- Helper: on optimizer success followed by allocation success at address
a, the call returns the descriptor (a, output length), allocates one block
at a and copies the output bytes into it. -/
theorem opt_some_malloc_some_eq (opt : Optimizer) (oracle : MallocOracle)
    (data : List Byte) (h : Heap) (png : List Byte) (a : Nat)
    (hopt : opt presetLevel data = some png)
    (hm : oracle png.length = some a) :
    optimize_png opt oracle data h =
      ⟨⟨some a, png.length⟩,
        ⟨(a, png.map some) ::
          h.blocks.map fun b => if b.1 = a then (a, png.map some) else b⟩,
        [png.length], png⟩ := by
  simp [optimize_png, hopt, malloc, hm, copy_nonoverlapping]

/-- Claim C1: the spec states the returned descriptor is one of exactly two
shapes, and in particular that a null address always comes with zero
length. The code violates this: with an optimizer output of three bytes
and a failing malloc, optimize_png returns a null data pointer paired with
size 3. This theorem evaluates the code at that failing input. -/
theorem null_descriptor_nonzero_size :
    (optimize_png optConst3 mallocNull [] ⟨[]⟩).result.data = none ∧
    (optimize_png optConst3 mallocNull [] ⟨[]⟩).result.size = 3 :=
  ⟨rfl, rfl⟩

/-- Claim C2: the spec states that when allocation of N bytes fails the
descriptor equals the sentinel (null, 0). The code violates this: with an
optimizer output of three bytes and a failing malloc, the returned
descriptor is (null, 3), not the sentinel. This theorem evaluates the code
at that failing input. -/
theorem alloc_failure_not_null_sentinel :
    (optimize_png optConst3 mallocNull [] ⟨[]⟩).result ≠ ⟨none, 0⟩ ∧
    (optimize_png optConst3 mallocNull [] ⟨[]⟩).result.data = none := by
  exact ⟨by decide, rfl⟩

/-- Claim C3: whenever the optimizer succeeds with output png, the size
field of the returned descriptor equals png.length regardless of the
allocation outcome; consequently when malloc fails on a non-empty output
the caller receives a null address paired with a non-zero length. -/
theorem size_always_output_length (opt : Optimizer) (oracle : MallocOracle)
    (data : List Byte) (h : Heap) (png : List Byte)
    (hopt : opt presetLevel data = some png) :
    (optimize_png opt oracle data h).result.size = png.length ∧
    (oracle png.length = none → 0 < png.length →
      (optimize_png opt oracle data h).result.data = none ∧
      (optimize_png opt oracle data h).result.size ≠ 0) := by
  constructor
  · cases hm : oracle png.length with
    | none => rw [opt_some_malloc_none_eq opt oracle data h png hopt hm]
    | some a => rw [opt_some_malloc_some_eq opt oracle data h png a hopt hm]
  · intro hm hpos
    rw [opt_some_malloc_none_eq opt oracle data h png hopt hm]
    exact ⟨rfl, Nat.pos_iff_ne_zero.mp hpos⟩

/-- Witness for C3 at the optimizer returning three bytes on empty input
and malloc always failing. -/
theorem size_always_output_length_witness :
    (optimize_png optConst3 mallocNull [] ⟨[]⟩).result.size = 3 ∧
    ((optimize_png optConst3 mallocNull [] ⟨[]⟩).result.data = none ∧
      (optimize_png optConst3 mallocNull [] ⟨[]⟩).result.size ≠ 0) := by
  have h := size_always_output_length optConst3 mallocNull [] ⟨[]⟩ [7, 7, 7] rfl
  exact ⟨h.1, h.2 rfl (by decide)⟩

/-- Claim C4: whenever optimize_png (run on an empty foreign heap) returns
a non-null address a, the heap afterwards holds exactly one block, based
at a, whose contents are byte-for-byte the optimizer output, every byte
initialized; its length and the descriptor size both equal the output
length. -/
theorem nonnull_result_exact_buffer (opt : Optimizer) (oracle : MallocOracle)
    (data png : List Byte) (a : Nat)
    (hopt : opt presetLevel data = some png)
    (ha : (optimize_png opt oracle data ⟨[]⟩).result.data = some a) :
    (optimize_png opt oracle data ⟨[]⟩).heap.blocks = [(a, png.map some)] ∧
    (optimize_png opt oracle data ⟨[]⟩).result.size = png.length ∧
    (png.map some).length = (optimize_png opt oracle data ⟨[]⟩).result.size := by
  cases hm : oracle png.length with
  | none =>
    rw [opt_some_malloc_none_eq opt oracle data ⟨[]⟩ png hopt hm] at ha
    exact absurd ha (by simp)
  | some a0 =>
    rw [opt_some_malloc_some_eq opt oracle data ⟨[]⟩ png a0 hopt hm] at ha ⊢
    have haa : a0 = a := by simpa using ha
    subst haa
    simp

/-- Witness for C4 at the optimizer returning three bytes and malloc
succeeding at address 100. -/
theorem nonnull_result_exact_buffer_witness :
    (optimize_png optConst3 mallocOk [] ⟨[]⟩).heap.blocks =
      [(100, [some 7, some 7, some 7])] ∧
    (optimize_png optConst3 mallocOk [] ⟨[]⟩).result.size = 3 ∧
    ([some 7, some 7, some 7] : List (Option Byte)).length =
      (optimize_png optConst3 mallocOk [] ⟨[]⟩).result.size :=
  nonnull_result_exact_buffer optConst3 mallocOk [] [7, 7, 7] 100 rfl rfl

/-- Claim C5: whenever the delegated optimizer fails, optimize_png returns
the descriptor (null, 0), leaves the foreign heap unchanged and issues no
allocation request. -/
theorem optimizer_failure_null_sentinel (opt : Optimizer)
    (oracle : MallocOracle) (data : List Byte) (h : Heap)
    (hopt : opt presetLevel data = none) :
    (optimize_png opt oracle data h).result = ⟨none, 0⟩ ∧
    (optimize_png opt oracle data h).heap = h ∧
    (optimize_png opt oracle data h).allocRequests = [] := by
  rw [opt_none_eq opt oracle data h hopt]
  exact ⟨rfl, rfl, rfl⟩

/-- Witness for C5 at the always-failing optimizer on a two-byte input. -/
theorem optimizer_failure_null_sentinel_witness :
    (optimize_png optFail mallocOk [1, 2] ⟨[]⟩).result = ⟨none, 0⟩ ∧
    (optimize_png optFail mallocOk [1, 2] ⟨[]⟩).heap = ⟨[]⟩ ∧
    (optimize_png optFail mallocOk [1, 2] ⟨[]⟩).allocRequests = [] :=
  optimizer_failure_null_sentinel optFail mallocOk [1, 2] ⟨[]⟩ rfl

/-- Claim C6: whenever the optimizer succeeds, the copy runs only after
the allocation is confirmed non-null: if malloc fails, no byte is written
to the heap and no source byte is read; and whenever the call (run on an
empty foreign heap) returns a non-null address, every byte of every block
it leaves behind is initialized. -/
theorem copy_only_after_malloc (opt : Optimizer) (data png : List Byte)
    (hopt : opt presetLevel data = some png) :
    (∀ (oracle : MallocOracle) (h : Heap), oracle png.length = none →
      (optimize_png opt oracle data h).heap = h ∧
      (optimize_png opt oracle data h).srcReads = []) ∧
    (∀ (oracle : MallocOracle) (a : Nat),
      (optimize_png opt oracle data ⟨[]⟩).result.data = some a →
      fullyInit (optimize_png opt oracle data ⟨[]⟩).heap) := by
  constructor
  · intro oracle h hm
    rw [opt_some_malloc_none_eq opt oracle data h png hopt hm]
    exact ⟨rfl, rfl⟩
  · intro oracle a ha
    cases hm : oracle png.length with
    | none =>
      rw [opt_some_malloc_none_eq opt oracle data ⟨[]⟩ png hopt hm] at ha
      exact absurd ha (by simp)
    | some a0 =>
      rw [opt_some_malloc_some_eq opt oracle data ⟨[]⟩ png a0 hopt hm]
      intro b hb x hx
      simp only [Heap.mk.injEq] at hb
      simp only [List.map_nil, List.mem_singleton] at hb
      subst hb
      simp only [List.mem_map] at hx
      obtain ⟨y, _, hy⟩ := hx
      rw [← hy]
      simp

/-- Witness for C6 at the optimizer returning three bytes, with a failing
malloc for the first part and a succeeding one for the second. -/
theorem copy_only_after_malloc_witness :
    ((optimize_png optConst3 mallocNull [] ⟨[]⟩).heap = ⟨[]⟩ ∧
      (optimize_png optConst3 mallocNull [] ⟨[]⟩).srcReads = []) ∧
    fullyInit (optimize_png optConst3 mallocOk [] ⟨[]⟩).heap :=
  ⟨(copy_only_after_malloc optConst3 [] [7, 7, 7] rfl).1 mallocNull ⟨[]⟩ rfl,
    (copy_only_after_malloc optConst3 [] [7, 7, 7] rfl).2 mallocOk 100 rfl⟩

/-- Claim C7: whenever the returned descriptor carries a null address, the
final foreign heap equals the initial one — the call leaves zero net
allocations outstanding. -/
theorem null_result_no_net_alloc (opt : Optimizer) (oracle : MallocOracle)
    (data : List Byte) (h : Heap)
    (hnull : (optimize_png opt oracle data h).result.data = none) :
    (optimize_png opt oracle data h).heap = h := by
  cases hopt : opt presetLevel data with
  | none => rw [opt_none_eq opt oracle data h hopt]
  | some png =>
    cases hm : oracle png.length with
    | none => rw [opt_some_malloc_none_eq opt oracle data h png hopt hm]
    | some a =>
      rw [opt_some_malloc_some_eq opt oracle data h png a hopt hm] at hnull
      exact absurd hnull (by simp)

/-- Witness for C7: a failing call started on a non-empty foreign heap
leaves that heap exactly as it was. -/
theorem null_result_no_net_alloc_witness :
    (optimize_png optFail mallocOk [3] ⟨[(5, [some 1])]⟩).heap =
      ⟨[(5, [some 1])]⟩ :=
  null_result_no_net_alloc optFail mallocOk [3] ⟨[(5, [some 1])]⟩ rfl

/-- Claim C8: for any optimizer behaviour satisfying the spec-modelled
rejection property, both the zero-length input and any input not
beginning with the PNG signature make optimize_png return the (null, 0)
descriptor. -/
theorem non_png_input_null_descriptor (opt : Optimizer)
    (oracle : MallocOracle) (h : Heap) (hopt : RejectsNonPNG opt)
    (garbage : List Byte)
    (hg : garbage.take pngSignature.length ≠ pngSignature) :
    (optimize_png opt oracle [] h).result = ⟨none, 0⟩ ∧
    (optimize_png opt oracle garbage h).result = ⟨none, 0⟩ := by
  constructor
  · rw [opt_none_eq opt oracle [] h (hopt presetLevel [] (by decide))]
  · rw [opt_none_eq opt oracle garbage h (hopt presetLevel garbage hg)]

/-- Witness for C8 at the always-failing optimizer (which satisfies the
rejection property) and ten garbage zero bytes. -/
theorem non_png_input_null_descriptor_witness :
    (optimize_png optFail mallocOk [] ⟨[]⟩).result = ⟨none, 0⟩ ∧
    (optimize_png optFail mallocOk [0, 0, 0, 0, 0, 0, 0, 0, 0, 0]
      ⟨[]⟩).result = ⟨none, 0⟩ :=
  non_png_input_null_descriptor optFail mallocOk ⟨[]⟩ (fun _ _ _ => rfl)
    [0, 0, 0, 0, 0, 0, 0, 0, 0, 0] (by decide)

/-- Claim C9: when the optimizer succeeds with the empty output, the call
reads no byte of the source sequence, performs exactly one allocation
request of zero bytes, and reports size zero. -/
theorem empty_output_no_src_read (opt : Optimizer) (oracle : MallocOracle)
    (data : List Byte) (h : Heap) (hopt : opt presetLevel data = some []) :
    (optimize_png opt oracle data h).srcReads = [] ∧
    (optimize_png opt oracle data h).allocRequests = [0] ∧
    (optimize_png opt oracle data h).result.size = 0 := by
  cases hm : oracle (List.length ([] : List Byte)) with
  | none =>
    rw [opt_some_malloc_none_eq opt oracle data h [] hopt hm]
    exact ⟨rfl, rfl, rfl⟩
  | some a =>
    rw [opt_some_malloc_some_eq opt oracle data h [] a hopt hm]
    exact ⟨rfl, rfl, rfl⟩

/-- Witness for C9 at the optimizer returning the empty output. -/
theorem empty_output_no_src_read_witness :
    (optimize_png optEmpty mallocOk [5] ⟨[]⟩).srcReads = [] ∧
    (optimize_png optEmpty mallocOk [5] ⟨[]⟩).allocRequests = [0] ∧
    (optimize_png optEmpty mallocOk [5] ⟨[]⟩).result.size = 0 :=
  empty_output_no_src_read optEmpty mallocOk [5] ⟨[]⟩ rfl

/-- Claim C10: on an input the optimizer rejects, any number of repeated
calls leaves the foreign heap unchanged and every repetition returns the
(null, 0) descriptor — the failure signal is the same on every call. -/
theorem repeated_failure_idempotent (opt : Optimizer)
    (oracle : MallocOracle) (data : List Byte)
    (hopt : opt presetLevel data = none) :
    ∀ (n : Nat) (h : Heap), run_calls opt oracle data n h = h ∧
      (optimize_png opt oracle data
        (run_calls opt oracle data n h)).result = ⟨none, 0⟩ := by
  intro n
  induction n with
  | zero =>
    intro h
    refine ⟨rfl, ?_⟩
    rw [run_calls, opt_none_eq opt oracle data h hopt]
  | succ n ih =>
    intro h
    have hh : (optimize_png opt oracle data h).heap = h := by
      rw [opt_none_eq opt oracle data h hopt]
    refine ⟨?_, ?_⟩
    · rw [run_calls, hh]
      exact (ih h).1
    · rw [run_calls, hh]
      exact (ih h).2

/-- Witness for C10: three repeated calls on a rejected input. -/
theorem repeated_failure_idempotent_witness :
    run_calls optFail mallocOk [9] 3 ⟨[]⟩ = ⟨[]⟩ ∧
    (optimize_png optFail mallocOk [9]
      (run_calls optFail mallocOk [9] 3 ⟨[]⟩)).result = ⟨none, 0⟩ :=
  repeated_failure_idempotent optFail mallocOk [9] rfl 3 ⟨[]⟩
